import Mathlib

/-!
# currency-converter: rate cache, conversion arithmetic and the convert handler

A shallow embedding of `services/currency_service.go`, `models/currency.go`
and `handlers/currency_handler.go`.

Modelling conventions.

* `float64` values are rationals (`ℚ`); conversion arithmetic is read exactly.
  Go's float division by zero yields `±Inf`/`NaN` and never panics; `ℚ`'s total
  division stands in for it.  Where a statement allows a zero rate, the quotient
  appears as the same term `x / r` the source computes and its value is never used.
  A response whose `float64` fields are `±Inf`/`NaN` cannot be encoded as JSON; the
  handlers ask `Env` whether the encoding of a successful body fails.
* `map[string]float64` is an association list read with `List.lookup`
  (the first binding of a key is the map's binding).
* Go `error` values are `GoError`; `(T, error)` results are `Except GoError T`.
* Stateful code passes a `World` (the two cache files, the clock, the log of
  upstream GETs, standard output) explicitly.  Everything outside the
  repository (the HTTP provider, `encoding/json`, file-system faults) is a
  field of `Env`.
* Times and durations are integers counting nanoseconds.
-/

namespace CurrencyConverter

/-! ## Go errors -/

/-- Go error values: `errors.New`-style leaves and `fmt.Errorf("...%w", err)` wrappers. -/
inductive GoError where
  | errorString (s : String)
  | wrapError (msg : String) (err : GoError)
deriving DecidableEq, Repr

/-- The `Error()` method. -/
def GoError.Error : GoError → String
  | .errorString s => s
  | .wrapError msg _ => msg

/-- The call `fmt.Errorf(pre + "%w", err)`: the message is the formatted string, the
wrapped error is kept. -/
def Errorf_w (pre : String) (err : GoError) : GoError :=
  .wrapError (pre ++ err.Error) err

/-! ## models/currency.go -/

namespace models

/-- The type `OXRResponse`: the response of the OpenExchangeRates API. -/
structure OXRResponse where
  Disclaimer : String
  License : String
  Timestamp : Int
  Base : String
  Rates : List (String × ℚ)
deriving DecidableEq, Repr

/-- The type `CurrencySymbols`, a `map[string]string`. -/
abbrev CurrencySymbols := List (String × String)

/-- The type `ConversionRequest`. -/
structure ConversionRequest where
  FromCurrency : String
  ToCurrency : String
  Amount : ℚ
deriving DecidableEq, Repr

/-- The type `ConversionResponse`. -/
structure ConversionResponse where
  Success : Bool
  FromCurrency : String
  ToCurrency : String
  Amount : ℚ
  Result : ℚ
  Rate : ℚ
  Timestamp : Int
deriving DecidableEq, Repr

/-- The type `ErrorResponse`. -/
structure ErrorResponse where
  Success : Bool
  Error : String
deriving DecidableEq, Repr

end models

open models

/-- Go's two-result map index `v, ok := m[k]`: the zero value and `false` for an absent key. -/
def mapIndex (m : List (String × ℚ)) (k : String) : ℚ × Bool :=
  match m.lookup k with
  | some v => (v, true)
  | none => (0, false)

/-! ## time -/

/-- The constant `time.Second`, in nanoseconds. -/
def Second : Int := 1000000000

/-- The constant `time.Hour`. -/
def Hour : Int := 3600 * Second

/-- The smallest `time.Duration` (an `int64`). -/
def minDuration : Int := -(2 ^ 63)

/-- The largest `time.Duration`. -/
def maxDuration : Int := 2 ^ 63 - 1

/-- The method `Time.Sub`: the difference `t - u`, saturated to the range of a `Duration`. -/
def timeSub (t u : Int) : Int :=
  if t - u > maxDuration then maxDuration
  else if t - u < minDuration then minDuration
  else t - u

/-! ## services/currency_service.go -/

namespace services

/-- The constant `RatesCacheDuration = 1 * time.Hour`. -/
def RatesCacheDuration : Int := 1 * Hour

/-- The constant `CurrenciesCacheDuration = 24 * time.Hour`. -/
def CurrenciesCacheDuration : Int := 24 * Hour

/-- The type `CurrencyService`. -/
structure CurrencyService where
  appID : String
  baseURL : String
deriving DecidableEq, Repr

/-- A file of the data directory: its bytes and its modification time. -/
structure FileEntry where
  data : String
  mtime : Int
deriving DecidableEq, Repr

/-- The two cache resources: `data/rates.json` and `data/currencies.json`. -/
inductive Resource where
  | rates
  | currencies
deriving DecidableEq, Repr

/-- The state the service reads and writes: the two cache files (absent or present), the wall
clock, the URLs requested from the provider so far, and the lines printed so far. -/
structure World where
  ratesFile : Option FileEntry
  currenciesFile : Option FileEntry
  now : Int
  requests : List String
  stdout : List String
deriving DecidableEq, Repr

/-- The outcome of `http.Get`: a transport error, or a status code with the outcome of reading
the body. -/
inductive HttpResult where
  | transportError (err : GoError)
  | response (statusCode : Nat) (body : Except GoError String)

/-- Everything outside the repository: the provider behind `http.Get`, `encoding/json`, and the
faults `os.ReadFile` and `os.WriteFile` can report.  A write fault carries the error and the
state the file is left in.  `marshalConversion` is the encoding of a `ConversionResponse`,
which `encoding/json` refuses when `Result` or `Rate` is `±Inf` or `NaN` (a `float64` overflow
or a zero rate); rationals have no such values, so the refusal is the environment's to report. -/
structure Env where
  httpGet : String → HttpResult
  unmarshalRates : String → Except GoError OXRResponse
  marshalRates : OXRResponse → Except GoError String
  unmarshalCurrencies : String → Except GoError CurrencySymbols
  marshalCurrencies : CurrencySymbols → Except GoError String
  marshalConversion : ConversionResponse → Except GoError String
  readFault : Resource → Option GoError
  writeFault : Resource → Option (GoError × Option FileEntry)

/-- The file of a resource. -/
def World.file (w : World) : Resource → Option FileEntry
  | .rates => w.ratesFile
  | .currencies => w.currenciesFile

/-- Replace the file of a resource. -/
def World.setFile (w : World) (r : Resource) (f : Option FileEntry) : World :=
  match r with
  | .rates => { w with ratesFile := f }
  | .currencies => { w with currenciesFile := f }

/-- The path `filepath.Join(DataDir, name)` of a resource. -/
def cachePath : Resource → String
  | .rates => "data/rates.json"
  | .currencies => "data/currencies.json"

/-- The call `os.ReadFile`: fails on an absent file or on a read fault. -/
def ReadFile (env : Env) (w : World) (r : Resource) : Except GoError String :=
  match w.file r with
  | none => .error (.errorString ("open " ++ cachePath r ++ ": no such file or directory"))
  | some f =>
    match env.readFault r with
    | some err => .error err
    | none => .ok f.data

/-- The call `os.WriteFile`: on success the file holds the bytes and its mtime is the clock. -/
def WriteFile (env : Env) (w : World) (r : Resource) (data : String) : Option GoError × World :=
  match env.writeFault r with
  | some (err, left) => (some err, w.setFile r left)
  | none => (none, w.setFile r (some { data := data, mtime := w.now }))

/-- The call `os.Stat` followed by `ModTime()`: fails exactly on an absent file. -/
def Stat (w : World) (r : Resource) : Option Int :=
  (w.file r).map FileEntry.mtime

/-- The URL `fetchRatesFromAPI` requests. -/
def ratesURL (cs : CurrencyService) : String :=
  cs.baseURL ++ "/latest.json?app_id=" ++ cs.appID ++ "&base=USD"

/-- The URL `fetchCurrenciesFromAPI` requests. -/
def currenciesURL (cs : CurrencyService) : String :=
  cs.baseURL ++ "/currencies.json"

/-- The method `fetchRatesFromAPI`. -/
def fetchRatesFromAPI (cs : CurrencyService) (env : Env) (w : World) :
    Except GoError OXRResponse × World :=
  let url := ratesURL cs
  let w1 := { w with requests := w.requests ++ [url] }
  match env.httpGet url with
  | .transportError err => (.error (Errorf_w "failed to fetch rates from API: " err), w1)
  | .response statusCode body =>
    if statusCode ≠ 200 then
      (.error (.errorString ("API returned status " ++ toString statusCode)), w1)
    else
      match body with
      | .error err => (.error (Errorf_w "failed to read response body: " err), w1)
      | .ok data =>
        match env.unmarshalRates data with
        | .error err => (.error (Errorf_w "failed to parse API response: " err), w1)
        | .ok rates => (.ok rates, w1)

/-- The method `getCachedRates`. -/
def getCachedRates (env : Env) (w : World) : Except GoError OXRResponse :=
  match ReadFile env w .rates with
  | .error err => .error err
  | .ok data =>
    match env.unmarshalRates data with
    | .error err => .error err
    | .ok cached => .ok cached

/-- The method `cacheRates`. -/
def cacheRates (env : Env) (w : World) (rates : OXRResponse) : Option GoError × World :=
  match env.marshalRates rates with
  | .error err => (some err, w)
  | .ok data => WriteFile env w .rates data

/-- The method `isRatesCacheValid`. -/
def isRatesCacheValid (w : World) : Bool :=
  match Stat w .rates with
  | none => false
  | some modTime =>
    let age := timeSub w.now modTime
    decide (age < RatesCacheDuration)

/-- The method `fetchCurrenciesFromAPI`. -/
def fetchCurrenciesFromAPI (cs : CurrencyService) (env : Env) (w : World) :
    Except GoError CurrencySymbols × World :=
  let url := currenciesURL cs
  let w1 := { w with requests := w.requests ++ [url] }
  match env.httpGet url with
  | .transportError err => (.error (Errorf_w "failed to fetch currencies from API: " err), w1)
  | .response statusCode body =>
    if statusCode ≠ 200 then
      (.error (.errorString ("API returned status " ++ toString statusCode)), w1)
    else
      match body with
      | .error err => (.error (Errorf_w "failed to read response body: " err), w1)
      | .ok data =>
        match env.unmarshalCurrencies data with
        | .error err => (.error (Errorf_w "failed to parse API response: " err), w1)
        | .ok currencies => (.ok currencies, w1)

/-- The method `getCachedCurrencies`. -/
def getCachedCurrencies (env : Env) (w : World) : Except GoError CurrencySymbols :=
  match ReadFile env w .currencies with
  | .error err => .error err
  | .ok data =>
    match env.unmarshalCurrencies data with
    | .error err => .error err
    | .ok cached => .ok cached

/-- The method `cacheCurrencies`. -/
def cacheCurrencies (env : Env) (w : World) (currencies : CurrencySymbols) :
    Option GoError × World :=
  match env.marshalCurrencies currencies with
  | .error err => (some err, w)
  | .ok data => WriteFile env w .currencies data

/-- The method `isCurrenciesCacheValid`. -/
def isCurrenciesCacheValid (w : World) : Bool :=
  match Stat w .currencies with
  | none => false
  | some modTime =>
    let age := timeSub w.now modTime
    decide (age < CurrenciesCacheDuration)

/-- The call `fmt.Printf(format, err)` with a `%v` verb and a trailing newline. -/
def Printf (w : World) (pre : String) (err : GoError) : World :=
  { w with stdout := w.stdout ++ [pre ++ err.Error ++ "\n"] }

/-- The method `GetCurrencySymbols`. -/
def GetCurrencySymbols (cs : CurrencyService) (env : Env) (w : World) :
    Except GoError CurrencySymbols × World :=
  match getCachedCurrencies env w, isCurrenciesCacheValid w with
  | .ok symbols, true => (.ok symbols, w)
  | _, _ =>
    match fetchCurrenciesFromAPI cs env w with
    | (.error err, w1) => (.error (Errorf_w "failed to fetch currencies from API: " err), w1)
    | (.ok symbols, w1) =>
      match cacheCurrencies env w1 symbols with
      | (some err, w2) => (.ok symbols, Printf w2 "Warning: failed to cache currencies: " err)
      | (none, w2) => (.ok symbols, w2)

/-- The method `GetCurrencyRates`. -/
def GetCurrencyRates (cs : CurrencyService) (env : Env) (w : World) :
    Except GoError OXRResponse × World :=
  match getCachedRates env w, isRatesCacheValid w with
  | .ok rates, true => (.ok rates, w)
  | _, _ =>
    match fetchRatesFromAPI cs env w with
    | (.error err, w1) => (.error err, w1)
    | (.ok rates, w1) =>
      match cacheRates env w1 rates with
      | (some err, w2) => (.ok rates, Printf w2 "Warning: failed to cache rates: " err)
      | (none, w2) => (.ok rates, w2)

/-- The method `ConvertCurrency`. -/
def ConvertCurrency (cs : CurrencyService) (env : Env) (w : World) (req : ConversionRequest) :
    Except GoError ConversionResponse × World :=
  match GetCurrencyRates cs env w with
  | (.error err, w1) => (.error (Errorf_w "failed to get currency rates: " err), w1)
  | (.ok rates, w1) =>
    let (fromRate, fromExists) := mapIndex rates.Rates req.FromCurrency
    let (toRate, toExists) := mapIndex rates.Rates req.ToCurrency
    if !fromExists then
      (.error (.errorString ("currency " ++ req.FromCurrency ++ " not found")), w1)
    else if !toExists then
      (.error (.errorString ("currency " ++ req.ToCurrency ++ " not found")), w1)
    else
      let (result, rate) :=
        if req.FromCurrency = "USD" then
          (req.Amount * toRate, toRate)
        else if req.ToCurrency = "USD" then
          (req.Amount / fromRate, 1 / fromRate)
        else
          let usdAmount := req.Amount / fromRate
          (usdAmount * toRate, toRate / fromRate)
      (.ok { Success := true
             FromCurrency := req.FromCurrency
             ToCurrency := req.ToCurrency
             Amount := req.Amount
             Result := result
             Rate := rate
             Timestamp := rates.Timestamp }, w1)

end services

/-! ## handlers/currency_handler.go -/

namespace handlers

open services

/-- The body a handler serialises with `c.JSON`. -/
inductive Body where
  | error (e : ErrorResponse)
  | conversion (r : ConversionResponse)
  | rates (r : OXRResponse)
deriving DecidableEq, Repr

/-- An HTTP response: status code and JSON body. -/
structure Response where
  status : Nat
  body : Body
deriving DecidableEq, Repr

/-- The constant `fiber.StatusOK`. -/
def StatusOK : Nat := 200

/-- The constant `fiber.StatusBadRequest`. -/
def StatusBadRequest : Nat := 400

/-- The constant `fiber.StatusInternalServerError`. -/
def StatusInternalServerError : Nat := 500

/-- The `ErrorHandler` of `main.go`, which answers an error a handler returns: the status is
500 unless the error is a `*fiber.Error`, and no error of this model is one. -/
def ErrorHandler (err : GoError) : Response :=
  { status := StatusInternalServerError
    body := .error { Success := false, Error := err.Error } }

/-- The handler `GetCurrencyRates` of `GET /api/rates`.  The final `c.JSON(rates)` returns the
encoder's error, if any, to the `ErrorHandler`. -/
def GetCurrencyRates (cs : CurrencyService) (env : Env) (w : World) : Response × World :=
  match services.GetCurrencyRates cs env w with
  | (.error err, w1) =>
    ({ status := StatusInternalServerError
       body := .error { Success := false, Error := err.Error } }, w1)
  | (.ok rates, w1) =>
    match env.marshalRates rates with
    | .error err => (ErrorHandler err, w1)
    | .ok _ => ({ status := StatusOK, body := .rates rates }, w1)

/-- The handler `ConvertCurrency` of `POST /api/convert`; `parsed` is the outcome of
`c.BodyParser(&req)`.  The final `c.JSON(result)` returns the encoder's error, if any, to the
`ErrorHandler`; the error bodies hold a boolean and a string and always encode. -/
def ConvertCurrency (cs : CurrencyService) (env : Env) (w : World)
    (parsed : Except GoError ConversionRequest) : Response × World :=
  match parsed with
  | .error _ =>
    ({ status := StatusBadRequest
       body := .error { Success := false, Error := "Invalid request body" } }, w)
  | .ok req =>
    if req.FromCurrency = "" ∨ req.ToCurrency = "" ∨ req.Amount ≤ 0 then
      ({ status := StatusBadRequest
         body := .error
           { Success := false
             Error := "from_currency, to_currency are required and amount must be greater than 0" } },
        w)
    else
      match services.ConvertCurrency cs env w req with
      | (.error err, w1) =>
        ({ status := StatusBadRequest
           body := .error { Success := false, Error := err.Error } }, w1)
      | (.ok result, w1) =>
        match env.marshalConversion result with
        | .error err => (ErrorHandler err, w1)
        | .ok _ => ({ status := StatusOK, body := .conversion result }, w1)

end handlers

/-! ## Concrete environments and states -/

namespace Example

open services

/-- A service over a test provider. -/
def cs : CurrencyService := { appID := "app", baseURL := "https://oxr.test/api" }

/-- A snapshot with the given rates, stamped 1700000000. -/
def snapshot (rates : List (String × ℚ)) : OXRResponse :=
  { Disclaimer := "", License := "", Timestamp := 1700000000, Base := "USD", Rates := rates }

/-- The rates of the seeded cache: USD 1, EUR 0.9, JPY 150. -/
def seedRates : List (String × ℚ) := [("USD", 1), ("EUR", 9 / 10), ("JPY", 150)]

/-- The names of the seeded symbols. -/
def seedSymbols : CurrencySymbols := [("USD", "United States Dollar"), ("EUR", "Euro")]

/-- An environment whose provider is unreachable, whose JSON decoder reads the bytes
`rates-v1` as the snapshot `S` and `symbols-v1` as `seedSymbols`, and which has no
file-system fault. -/
def env (S : OXRResponse) : Env :=
  { httpGet := fun _ => .transportError (.errorString "dial tcp: connection refused")
    unmarshalRates := fun b =>
      if b = "rates-v1" then .ok S else .error (.errorString "unexpected end of JSON input")
    marshalRates := fun _ => .ok "rates-v1"
    unmarshalCurrencies := fun b =>
      if b = "symbols-v1" then .ok seedSymbols
      else .error (.errorString "unexpected end of JSON input")
    marshalCurrencies := fun _ => .ok "symbols-v1"
    marshalConversion := fun _ => .ok "conversion-v1"
    readFault := fun _ => none
    writeFault := fun _ => none }

/-- An environment like `env S` whose provider answers every GET with status 200 and the
body `rates-v1`. -/
def liveEnv (S : OXRResponse) : Env :=
  { env S with httpGet := fun _ => .response 200 (.ok "rates-v1") }

/-- A state whose rates file was written 1000 s ago and whose symbols file is absent. -/
def warm : World :=
  { ratesFile := some { data := "rates-v1", mtime := 0 }
    currenciesFile := none
    now := 1000 * Second
    requests := []
    stdout := [] }

/-- A state with no cache file. -/
def cold : World :=
  { ratesFile := none, currenciesFile := none, now := 1000 * Second, requests := [], stdout := [] }

end Example

/-! ## Shared lemmas -/

namespace services

theorem timeSub_lt_iff (t u d : Int) (hlo : minDuration < d) (hhi : d ≤ maxDuration) :
    timeSub t u < d ↔ t - u < d := by
  unfold timeSub
  split_ifs with h1 h2
  · constructor
    · intro h; omega
    · intro h; omega
  · constructor
    · intro _; omega
    · intro _; exact hlo
  · exact Iff.rfl

theorem mapIndex_some {m : List (String × ℚ)} {k : String} {v : ℚ} (h : m.lookup k = some v) :
    mapIndex m k = (v, true) := by
  simp [mapIndex, h]

theorem mapIndex_none {m : List (String × ℚ)} {k : String} (h : m.lookup k = none) :
    mapIndex m k = (0, false) := by
  simp [mapIndex, h]

/-- With a snapshot in hand, an absent source code is reported. -/
theorem ConvertCurrency_from_absent {cs : CurrencyService} {env : Env} {w : World}
    {S : OXRResponse} (req : ConversionRequest)
    (hS : (GetCurrencyRates cs env w).1 = .ok S)
    (hf : S.Rates.lookup req.FromCurrency = none) :
    (ConvertCurrency cs env w req).1
      = .error (.errorString ("currency " ++ req.FromCurrency ++ " not found")) := by
  unfold ConvertCurrency
  rcases hG : GetCurrencyRates cs env w with ⟨r, w1⟩
  rw [hG] at hS
  simp only at hS
  subst hS
  simp [mapIndex_none hf]

/-- With a snapshot in hand, an absent target code is reported when the source code is present. -/
theorem ConvertCurrency_to_absent {cs : CurrencyService} {env : Env} {w : World}
    {S : OXRResponse} (req : ConversionRequest) (fromRate : ℚ)
    (hS : (GetCurrencyRates cs env w).1 = .ok S)
    (hf : S.Rates.lookup req.FromCurrency = some fromRate)
    (ht : S.Rates.lookup req.ToCurrency = none) :
    (ConvertCurrency cs env w req).1
      = .error (.errorString ("currency " ++ req.ToCurrency ++ " not found")) := by
  unfold ConvertCurrency
  rcases hG : GetCurrencyRates cs env w with ⟨r, w1⟩
  rw [hG] at hS
  simp only at hS
  subst hS
  simp [mapIndex_some hf, mapIndex_none ht]

/-- With a snapshot in hand and both codes present, the response is built from the three
branches of the source. -/
theorem ConvertCurrency_present {cs : CurrencyService} {env : Env} {w : World}
    {S : OXRResponse} (req : ConversionRequest) (fromRate toRate : ℚ)
    (hS : (GetCurrencyRates cs env w).1 = .ok S)
    (hf : S.Rates.lookup req.FromCurrency = some fromRate)
    (ht : S.Rates.lookup req.ToCurrency = some toRate) :
    (ConvertCurrency cs env w req).1
      = .ok { Success := true
              FromCurrency := req.FromCurrency
              ToCurrency := req.ToCurrency
              Amount := req.Amount
              Result :=
                if req.FromCurrency = "USD" then req.Amount * toRate
                else if req.ToCurrency = "USD" then req.Amount / fromRate
                else req.Amount / fromRate * toRate
              Rate :=
                if req.FromCurrency = "USD" then toRate
                else if req.ToCurrency = "USD" then 1 / fromRate
                else toRate / fromRate
              Timestamp := S.Timestamp } := by
  unfold ConvertCurrency
  rcases hG : GetCurrencyRates cs env w with ⟨r, w1⟩
  rw [hG] at hS
  simp only at hS
  subst hS
  simp only [mapIndex_some hf, mapIndex_some ht]
  split_ifs <;> simp_all

/-- The seeded cache is hit: the decoded snapshot is returned and the state is untouched. -/
theorem Example_warm_rates (S : OXRResponse) :
    GetCurrencyRates Example.cs (Example.env S) Example.warm = (.ok S, Example.warm) := by
  simp [GetCurrencyRates, getCachedRates, ReadFile, World.file, Example.warm, Example.env,
    isRatesCacheValid, Stat, timeSub, RatesCacheDuration, Hour, Second, maxDuration, minDuration]

end services

/-! ## Shared lemmas on the miss path -/

namespace services

theorem fetchRatesFromAPI_world (cs : CurrencyService) (env : Env) (w : World) :
    (fetchRatesFromAPI cs env w).2 = { w with requests := w.requests ++ [ratesURL cs] } := by
  unfold fetchRatesFromAPI
  simp only
  split
  · rfl
  · split
    · rfl
    · split
      · rfl
      · split <;> rfl

theorem fetchCurrenciesFromAPI_world (cs : CurrencyService) (env : Env) (w : World) :
    (fetchCurrenciesFromAPI cs env w).2
      = { w with requests := w.requests ++ [currenciesURL cs] } := by
  unfold fetchCurrenciesFromAPI
  simp only
  split
  · rfl
  · split
    · rfl
    · split
      · rfl
      · split <;> rfl

theorem GetCurrencyRates_miss (cs : CurrencyService) (env : Env) (w : World)
    (h : isRatesCacheValid w = false ∨ ∃ err, getCachedRates env w = .error err) :
    GetCurrencyRates cs env w
      = match fetchRatesFromAPI cs env w with
        | (.error err, w1) => (.error err, w1)
        | (.ok rates, w1) =>
          match cacheRates env w1 rates with
          | (some err, w2) => (.ok rates, Printf w2 "Warning: failed to cache rates: " err)
          | (none, w2) => (.ok rates, w2) := by
  unfold GetCurrencyRates
  split
  · rename_i hc hv
    rcases h with h | ⟨err, h⟩
    · rw [h] at hv
      cases hv
    · rw [h] at hc
      cases hc
  · rfl

theorem GetCurrencySymbols_miss (cs : CurrencyService) (env : Env) (w : World)
    (h : isCurrenciesCacheValid w = false ∨ ∃ err, getCachedCurrencies env w = .error err) :
    GetCurrencySymbols cs env w
      = match fetchCurrenciesFromAPI cs env w with
        | (.error err, w1) =>
          (.error (Errorf_w "failed to fetch currencies from API: " err), w1)
        | (.ok symbols, w1) =>
          match cacheCurrencies env w1 symbols with
          | (some err, w2) =>
            (.ok symbols, Printf w2 "Warning: failed to cache currencies: " err)
          | (none, w2) => (.ok symbols, w2) := by
  unfold GetCurrencySymbols
  split
  · rename_i hc hv
    rcases h with h | ⟨err, h⟩
    · rw [h] at hv
      cases hv
    · rw [h] at hc
      cases hc
  · rfl

theorem GetCurrencyRates_miss_ok (cs : CurrencyService) (env : Env) (w : World)
    (h : isRatesCacheValid w = false ∨ ∃ err, getCachedRates env w = .error err)
    {v : OXRResponse} {w1 : World} (hfetch : fetchRatesFromAPI cs env w = (.ok v, w1)) :
    GetCurrencyRates cs env w
      = match cacheRates env w1 v with
        | (some err, w2) => (.ok v, Printf w2 "Warning: failed to cache rates: " err)
        | (none, w2) => (.ok v, w2) := by
  rw [GetCurrencyRates_miss cs env w h, hfetch]

theorem GetCurrencyRates_miss_error (cs : CurrencyService) (env : Env) (w : World)
    (h : isRatesCacheValid w = false ∨ ∃ err, getCachedRates env w = .error err)
    {e : GoError} {w1 : World} (hfetch : fetchRatesFromAPI cs env w = (.error e, w1)) :
    GetCurrencyRates cs env w = (.error e, w1) := by
  rw [GetCurrencyRates_miss cs env w h, hfetch]

theorem GetCurrencySymbols_miss_ok (cs : CurrencyService) (env : Env) (w : World)
    (h : isCurrenciesCacheValid w = false ∨ ∃ err, getCachedCurrencies env w = .error err)
    {v : CurrencySymbols} {w1 : World}
    (hfetch : fetchCurrenciesFromAPI cs env w = (.ok v, w1)) :
    GetCurrencySymbols cs env w
      = match cacheCurrencies env w1 v with
        | (some err, w2) => (.ok v, Printf w2 "Warning: failed to cache currencies: " err)
        | (none, w2) => (.ok v, w2) := by
  rw [GetCurrencySymbols_miss cs env w h, hfetch]

theorem GetCurrencySymbols_miss_error (cs : CurrencyService) (env : Env) (w : World)
    (h : isCurrenciesCacheValid w = false ∨ ∃ err, getCachedCurrencies env w = .error err)
    {e : GoError} {w1 : World} (hfetch : fetchCurrenciesFromAPI cs env w = (.error e, w1)) :
    GetCurrencySymbols cs env w
      = (.error (Errorf_w "failed to fetch currencies from API: " e), w1) := by
  rw [GetCurrencySymbols_miss cs env w h, hfetch]

theorem cacheRates_requests (env : Env) (w : World) (rates : OXRResponse) :
    (cacheRates env w rates).2.requests = w.requests := by
  unfold cacheRates WriteFile
  split
  · rfl
  · split <;> rfl

theorem cacheCurrencies_requests (env : Env) (w : World) (symbols : CurrencySymbols) :
    (cacheCurrencies env w symbols).2.requests = w.requests := by
  unfold cacheCurrencies WriteFile
  split
  · rfl
  · split <;> rfl

end services

/-! ## The conversion table and the unknown-currency error -/

namespace services

/-- C1: once `GetCurrencyRates` has produced a snapshot `S`, a request whose two codes are keys
of `S.Rates` succeeds, and the response is the row of the conversion table: from USD the result
is `amount * rate[to]` at rate `rate[to]`; to USD it is `amount / rate[from]` at rate
`1 / rate[from]`; otherwise `(amount / rate[from]) * rate[to]` at rate `rate[to] / rate[from]`.
The codes and the amount are echoed, `Success` is true and the timestamp is the snapshot's. -/
theorem ConvertCurrency_follows_table (cs : CurrencyService) (env : Env) (w : World)
    (S : OXRResponse) (req : ConversionRequest) (fromRate toRate : ℚ)
    (hS : (GetCurrencyRates cs env w).1 = .ok S)
    (hf : S.Rates.lookup req.FromCurrency = some fromRate)
    (ht : S.Rates.lookup req.ToCurrency = some toRate) :
    ∃ resp, (ConvertCurrency cs env w req).1 = .ok resp
      ∧ resp.Success = true
      ∧ resp.FromCurrency = req.FromCurrency
      ∧ resp.ToCurrency = req.ToCurrency
      ∧ resp.Amount = req.Amount
      ∧ resp.Timestamp = S.Timestamp
      ∧ (req.FromCurrency = "USD" →
          resp.Result = req.Amount * toRate ∧ resp.Rate = toRate)
      ∧ (req.FromCurrency ≠ "USD" → req.ToCurrency = "USD" →
          resp.Result = req.Amount / fromRate ∧ resp.Rate = 1 / fromRate)
      ∧ (req.FromCurrency ≠ "USD" → req.ToCurrency ≠ "USD" →
          resp.Result = (req.Amount / fromRate) * toRate ∧ resp.Rate = toRate / fromRate) := by
  refine ⟨_, ConvertCurrency_present req _ _ hS hf ht, rfl, rfl, rfl, rfl, rfl, ?_, ?_, ?_⟩
  · intro h
    simp [h]
  · intro h1 h2
    simp [h1, h2]
  · intro h1 h2
    simp [h1, h2]

/-- The seeded scenario EUR to JPY, amount 100: the theorem applies and gives 150000 / 9. -/
theorem ConvertCurrency_follows_table_witness :
    (GetCurrencyRates Example.cs (Example.env (Example.snapshot Example.seedRates))
        Example.warm).1 = .ok (Example.snapshot Example.seedRates)
      ∧ ∃ resp, (ConvertCurrency Example.cs (Example.env (Example.snapshot Example.seedRates))
            Example.warm { FromCurrency := "EUR", ToCurrency := "JPY", Amount := 100 }).1
          = .ok resp
        ∧ resp.Result = 150000 / 9 ∧ resp.Rate = 1500 / 9 ∧ resp.Timestamp = 1700000000 := by
  have hS := congrArg Prod.fst (Example_warm_rates (Example.snapshot Example.seedRates))
  refine ⟨hS, ?_⟩
  obtain ⟨resp, h, -, -, -, -, hts, -, -, h3⟩ :=
    ConvertCurrency_follows_table Example.cs _ Example.warm _
      { FromCurrency := "EUR", ToCurrency := "JPY", Amount := 100 } (9 / 10) 150 hS rfl rfl
  refine ⟨resp, h, ?_, ?_, ?_⟩
  · rw [(h3 (by decide) (by decide)).1]
    norm_num
  · rw [(h3 (by decide) (by decide)).2]
    norm_num
  · rw [hts]
    rfl

/-- C2: once a snapshot `S` is in hand, `ConvertCurrency` fails exactly when the source or the
target code is not a key of `S.Rates` (keys are compared as exact strings); the message is
`currency <code> not found`, naming the source code when it is absent and the target code
otherwise; a failing call carries no response. -/
theorem ConvertCurrency_error_iff_unknown (cs : CurrencyService) (env : Env) (w : World)
    (S : OXRResponse) (req : ConversionRequest)
    (hS : (GetCurrencyRates cs env w).1 = .ok S) :
    ((∃ err, (ConvertCurrency cs env w req).1 = .error err)
        ↔ (S.Rates.lookup req.FromCurrency = none ∨ S.Rates.lookup req.ToCurrency = none))
      ∧ (S.Rates.lookup req.FromCurrency = none →
          ∃ err, (ConvertCurrency cs env w req).1 = .error err
            ∧ err.Error = "currency " ++ req.FromCurrency ++ " not found")
      ∧ (S.Rates.lookup req.FromCurrency ≠ none → S.Rates.lookup req.ToCurrency = none →
          ∃ err, (ConvertCurrency cs env w req).1 = .error err
            ∧ err.Error = "currency " ++ req.ToCurrency ++ " not found") := by
  refine ⟨?_, ?_, ?_⟩
  · constructor
    · rintro ⟨err, herr⟩
      by_contra hcon
      push_neg at hcon
      obtain ⟨fromRate, hf⟩ := Option.ne_none_iff_exists'.mp hcon.1
      obtain ⟨toRate, ht⟩ := Option.ne_none_iff_exists'.mp hcon.2
      rw [ConvertCurrency_present req _ _ hS hf ht] at herr
      cases herr
    · intro h
      cases hf : S.Rates.lookup req.FromCurrency with
      | none => exact ⟨_, ConvertCurrency_from_absent req hS hf⟩
      | some fromRate =>
        rcases h with h | h
        · rw [hf] at h
          cases h
        · exact ⟨_, ConvertCurrency_to_absent req _ hS hf h⟩
  · intro hf
    exact ⟨_, ConvertCurrency_from_absent req hS hf, rfl⟩
  · intro hf ht
    obtain ⟨fromRate, hf⟩ := Option.ne_none_iff_exists'.mp hf
    exact ⟨_, ConvertCurrency_to_absent req _ hS hf ht, rfl⟩

/-- The scenario EUR to XXX: the error reads `currency XXX not found`, and the lower-case code
`eur` is not the key `EUR`. -/
theorem ConvertCurrency_error_iff_unknown_witness :
    (GetCurrencyRates Example.cs (Example.env (Example.snapshot Example.seedRates))
        Example.warm).1 = .ok (Example.snapshot Example.seedRates)
      ∧ (∃ err, (ConvertCurrency Example.cs (Example.env (Example.snapshot Example.seedRates))
            Example.warm { FromCurrency := "EUR", ToCurrency := "XXX", Amount := 1 }).1
          = .error err ∧ err.Error = "currency XXX not found")
      ∧ (∃ err, (ConvertCurrency Example.cs (Example.env (Example.snapshot Example.seedRates))
            Example.warm { FromCurrency := "eur", ToCurrency := "JPY", Amount := 1 }).1
          = .error err ∧ err.Error = "currency eur not found") := by
  have hS := congrArg Prod.fst (Example_warm_rates (Example.snapshot Example.seedRates))
  refine ⟨hS, ?_, ?_⟩
  · exact (ConvertCurrency_error_iff_unknown Example.cs _ Example.warm _
      { FromCurrency := "EUR", ToCurrency := "XXX", Amount := 1 } hS).2.2
      (by decide) (by decide)
  · exact (ConvertCurrency_error_iff_unknown Example.cs _ Example.warm _
      { FromCurrency := "eur", ToCurrency := "JPY", Amount := 1 } hS).2.1 (by decide)

/-! ## USD as the base currency -/

/-- C3, refuted as stated: in a snapshot whose only key is EUR (rate 0.9 > 0, no key USD) the
conversions USD to EUR and EUR to USD both fail with `currency USD not found`; neither
produces a result. -/
theorem ConvertCurrency_USD_absent_counterexample :
    List.lookup "USD" (Example.snapshot [("EUR", 9 / 10)]).Rates = none
      ∧ List.lookup "EUR" (Example.snapshot [("EUR", 9 / 10)]).Rates = some (9 / 10)
      ∧ (0 : ℚ) < 9 / 10
      ∧ (GetCurrencyRates Example.cs (Example.env (Example.snapshot [("EUR", 9 / 10)]))
          Example.warm).1 = .ok (Example.snapshot [("EUR", 9 / 10)])
      ∧ (ConvertCurrency Example.cs (Example.env (Example.snapshot [("EUR", 9 / 10)]))
          Example.warm { FromCurrency := "USD", ToCurrency := "EUR", Amount := 10 }).1
        = .error (.errorString "currency USD not found")
      ∧ (ConvertCurrency Example.cs (Example.env (Example.snapshot [("EUR", 9 / 10)]))
          Example.warm { FromCurrency := "EUR", ToCurrency := "USD", Amount := 9 }).1
        = .error (.errorString "currency USD not found")
      ∧ ¬ ∃ resp, (ConvertCurrency Example.cs (Example.env (Example.snapshot [("EUR", 9 / 10)]))
          Example.warm { FromCurrency := "USD", ToCurrency := "EUR", Amount := 10 }).1
        = .ok resp ∧ resp.Result = 10 * (9 / 10) := by
  have hS := congrArg Prod.fst (Example_warm_rates (Example.snapshot [("EUR", 9 / 10)]))
  have h1 := ConvertCurrency_from_absent
    { FromCurrency := "USD", ToCurrency := "EUR", Amount := 10 } hS rfl
  have h2 := ConvertCurrency_to_absent
    { FromCurrency := "EUR", ToCurrency := "USD", Amount := 9 } (9 / 10) hS rfl rfl
  refine ⟨rfl, rfl, by norm_num, hS, h1, h2, ?_⟩
  rintro ⟨resp, hresp, -⟩
  rw [h1] at hresp
  cases hresp

/-- C3, amended: the arithmetic never reads the rate stored under USD, but USD has to be a key.
For a snapshot `S` and a code `C` other than USD with `rate[C] > 0`: if USD is a key of
`S.Rates` (whatever value it carries), USD to C gives `x * rate[C]` and C to USD gives
`x / rate[C]`; if USD is not a key, both conversions fail with `currency USD not found`. -/
theorem ConvertCurrency_USD_key_required (cs : CurrencyService) (env : Env) (w : World)
    (S : OXRResponse) (C : String) (x rC : ℚ)
    (hS : (GetCurrencyRates cs env w).1 = .ok S)
    (hC : S.Rates.lookup C = some rC) (hpos : 0 < rC) (hne : C ≠ "USD") :
    (∀ u, S.Rates.lookup "USD" = some u →
        (∃ resp, (ConvertCurrency cs env w
              { FromCurrency := "USD", ToCurrency := C, Amount := x }).1 = .ok resp
            ∧ resp.Result = x * rC)
          ∧ (∃ resp, (ConvertCurrency cs env w
              { FromCurrency := C, ToCurrency := "USD", Amount := x }).1 = .ok resp
            ∧ resp.Result = x / rC))
      ∧ (S.Rates.lookup "USD" = none →
          (ConvertCurrency cs env w { FromCurrency := "USD", ToCurrency := C, Amount := x }).1
              = .error (.errorString "currency USD not found")
            ∧ (ConvertCurrency cs env w
                { FromCurrency := C, ToCurrency := "USD", Amount := x }).1
              = .error (.errorString "currency USD not found")) := by
  have _ := hpos
  refine ⟨?_, ?_⟩
  · intro u hu
    refine ⟨⟨_, ConvertCurrency_present
        { FromCurrency := "USD", ToCurrency := C, Amount := x } _ _ hS hu hC, ?_⟩,
      ⟨_, ConvertCurrency_present
        { FromCurrency := C, ToCurrency := "USD", Amount := x } _ _ hS hC hu, ?_⟩⟩
    · simp
    · simp [hne]
  · intro hu
    exact ⟨ConvertCurrency_from_absent
        { FromCurrency := "USD", ToCurrency := C, Amount := x } hS hu,
      ConvertCurrency_to_absent
        { FromCurrency := C, ToCurrency := "USD", Amount := x } _ hS hC hu⟩

/-- The seeded scenarios USD to EUR, amount 10 (result 9) and EUR to USD, amount 9 (result 10). -/
theorem ConvertCurrency_USD_key_required_witness :
    (GetCurrencyRates Example.cs (Example.env (Example.snapshot Example.seedRates))
        Example.warm).1 = .ok (Example.snapshot Example.seedRates)
      ∧ (∃ resp, (ConvertCurrency Example.cs (Example.env (Example.snapshot Example.seedRates))
            Example.warm { FromCurrency := "USD", ToCurrency := "EUR", Amount := 10 }).1
          = .ok resp ∧ resp.Result = 10 * (9 / 10))
      ∧ (∃ resp, (ConvertCurrency Example.cs (Example.env (Example.snapshot Example.seedRates))
            Example.warm { FromCurrency := "EUR", ToCurrency := "USD", Amount := 10 }).1
          = .ok resp ∧ resp.Result = 10 / (9 / 10)) := by
  have hS := congrArg Prod.fst (Example_warm_rates (Example.snapshot Example.seedRates))
  exact ⟨hS, (ConvertCurrency_USD_key_required Example.cs _ Example.warm _ "EUR" 10 (9 / 10) hS
    rfl (by norm_num) (by decide)).1 1 rfl⟩

/-- C4: for a snapshot `S` that meets the data model's invariant (the rate stored under USD,
when USD is a key, is 1), every key `C` with `rate[C] > 0`, USD included, and every amount `x`,
converting `x` from `C` to `C` returns `x` at rate 1. -/
theorem ConvertCurrency_identity (cs : CurrencyService) (env : Env) (w : World)
    (S : OXRResponse) (C : String) (x r : ℚ)
    (hS : (GetCurrencyRates cs env w).1 = .ok S)
    (hinv : ∀ u, S.Rates.lookup "USD" = some u → u = 1)
    (hC : S.Rates.lookup C = some r) (hpos : 0 < r) :
    ∃ resp, (ConvertCurrency cs env w { FromCurrency := C, ToCurrency := C, Amount := x }).1
        = .ok resp
      ∧ resp.Result = x ∧ resp.Rate = 1 := by
  have hUSD : C = "USD" → r = 1 := by
    intro h
    rw [h] at hC
    exact hinv r hC
  refine ⟨_, ConvertCurrency_present
    { FromCurrency := C, ToCurrency := C, Amount := x } _ _ hS hC hC, ?_, ?_⟩
  · by_cases h : C = "USD"
    · simp [h, hUSD h]
    · simp only [h, if_false]
      field_simp
  · by_cases h : C = "USD"
    · simp [h, hUSD h]
    · simp only [h, if_false]
      field_simp

/-- EUR to EUR and USD to USD on the seeded snapshot, which stores USD at 1, are identities. -/
theorem ConvertCurrency_identity_witness :
    (GetCurrencyRates Example.cs (Example.env (Example.snapshot Example.seedRates))
        Example.warm).1 = .ok (Example.snapshot Example.seedRates)
      ∧ (∀ u, List.lookup "USD" (Example.snapshot Example.seedRates).Rates = some u → u = 1)
      ∧ (∃ resp, (ConvertCurrency Example.cs (Example.env (Example.snapshot Example.seedRates))
            Example.warm { FromCurrency := "EUR", ToCurrency := "EUR", Amount := 7 }).1
          = .ok resp ∧ resp.Result = 7 ∧ resp.Rate = 1)
      ∧ (∃ resp, (ConvertCurrency Example.cs (Example.env (Example.snapshot Example.seedRates))
            Example.warm { FromCurrency := "USD", ToCurrency := "USD", Amount := 7 }).1
          = .ok resp ∧ resp.Result = 7 ∧ resp.Rate = 1) := by
  have hS := congrArg Prod.fst (Example_warm_rates (Example.snapshot Example.seedRates))
  have hinv : ∀ u, List.lookup "USD" (Example.snapshot Example.seedRates).Rates = some u →
      u = 1 := fun u hu => (Option.some.inj hu).symm
  exact ⟨hS, hinv,
    ConvertCurrency_identity Example.cs _ Example.warm _ "EUR" 7 (9 / 10) hS hinv rfl
      (by norm_num),
    ConvertCurrency_identity Example.cs _ Example.warm _ "USD" 7 1 hS hinv rfl
      (by norm_num)⟩

/-- C5: for a snapshot `S` that meets the data model's invariant (the rate stored under USD is
1) and contains the keys `F`, `T` and USD at positive rates, `F` and `T` ranging over all keys,
USD included, converting `x` from `F` to `T` gives the same result as converting `x` from `F`
to USD and that result from USD to `T`. -/
theorem ConvertCurrency_triangulation (cs : CurrencyService) (env : Env) (w : World)
    (S : OXRResponse) (F T : String) (x rF rT u : ℚ)
    (hS : (GetCurrencyRates cs env w).1 = .ok S)
    (hinv : ∀ v, S.Rates.lookup "USD" = some v → v = 1)
    (hF : S.Rates.lookup F = some rF) (hT : S.Rates.lookup T = some rT)
    (hU : S.Rates.lookup "USD" = some u)
    (hFpos : 0 < rF) (hTpos : 0 < rT) (hUpos : 0 < u) :
    ∃ direct leg1 leg2,
      (ConvertCurrency cs env w { FromCurrency := F, ToCurrency := T, Amount := x }).1
          = .ok direct
        ∧ (ConvertCurrency cs env w { FromCurrency := F, ToCurrency := "USD", Amount := x }).1
          = .ok leg1
        ∧ (ConvertCurrency cs env w
            { FromCurrency := "USD", ToCurrency := T, Amount := leg1.Result }).1 = .ok leg2
        ∧ direct.Result = leg2.Result := by
  have _ := hFpos
  have _ := hTpos
  have _ := hUpos
  have hu1 : u = 1 := hinv u hU
  refine ⟨_, _, _,
    ConvertCurrency_present { FromCurrency := F, ToCurrency := T, Amount := x } _ _ hS hF hT,
    ConvertCurrency_present { FromCurrency := F, ToCurrency := "USD", Amount := x } _ _
      hS hF hU,
    ConvertCurrency_present { FromCurrency := "USD", ToCurrency := T, Amount := _ } _ _
      hS hU hT,
    ?_⟩
  by_cases hFu : F = "USD"
  · simp [hFu, hu1]
  · by_cases hTu : T = "USD"
    · have hrT : rT = 1 := by
        rw [hTu, hU, hu1] at hT
        exact (Option.some.inj hT).symm
      simp [hFu, hTu, hrT]
    · simp [hFu, hTu]

/-- On the seeded snapshot, EUR to JPY agrees with EUR to USD followed by USD to JPY, and USD
to EUR agrees with USD to USD followed by USD to EUR. -/
theorem ConvertCurrency_triangulation_witness :
    (GetCurrencyRates Example.cs (Example.env (Example.snapshot Example.seedRates))
        Example.warm).1 = .ok (Example.snapshot Example.seedRates)
      ∧ (∀ v, List.lookup "USD" (Example.snapshot Example.seedRates).Rates = some v → v = 1)
      ∧ (∃ direct leg1 leg2,
          (ConvertCurrency Example.cs (Example.env (Example.snapshot Example.seedRates))
              Example.warm { FromCurrency := "EUR", ToCurrency := "JPY", Amount := 100 }).1
              = .ok direct
            ∧ (ConvertCurrency Example.cs (Example.env (Example.snapshot Example.seedRates))
              Example.warm { FromCurrency := "EUR", ToCurrency := "USD", Amount := 100 }).1
              = .ok leg1
            ∧ (ConvertCurrency Example.cs (Example.env (Example.snapshot Example.seedRates))
              Example.warm
              { FromCurrency := "USD", ToCurrency := "JPY", Amount := leg1.Result }).1
              = .ok leg2
            ∧ direct.Result = leg2.Result)
      ∧ (∃ direct leg1 leg2,
          (ConvertCurrency Example.cs (Example.env (Example.snapshot Example.seedRates))
              Example.warm { FromCurrency := "USD", ToCurrency := "EUR", Amount := 10 }).1
              = .ok direct
            ∧ (ConvertCurrency Example.cs (Example.env (Example.snapshot Example.seedRates))
              Example.warm { FromCurrency := "USD", ToCurrency := "USD", Amount := 10 }).1
              = .ok leg1
            ∧ (ConvertCurrency Example.cs (Example.env (Example.snapshot Example.seedRates))
              Example.warm
              { FromCurrency := "USD", ToCurrency := "EUR", Amount := leg1.Result }).1
              = .ok leg2
            ∧ direct.Result = leg2.Result) := by
  have hS := congrArg Prod.fst (Example_warm_rates (Example.snapshot Example.seedRates))
  have hinv : ∀ v, List.lookup "USD" (Example.snapshot Example.seedRates).Rates = some v →
      v = 1 := fun v hv => (Option.some.inj hv).symm
  exact ⟨hS, hinv,
    ConvertCurrency_triangulation Example.cs _ Example.warm _ "EUR" "JPY" 100
      (9 / 10) 150 1 hS hinv rfl rfl rfl (by norm_num) (by norm_num) (by norm_num),
    ConvertCurrency_triangulation Example.cs _ Example.warm _ "USD" "EUR" 10
      1 (9 / 10) 1 hS hinv rfl rfl rfl (by norm_num) (by norm_num) (by norm_num)⟩

/-! ## Rates that are not positive -/

/-- C6, refuted as stated: with EUR stored at rate 0 and GBP at rate -2, the conversions EUR to
JPY and GBP to JPY of amount 1 both return a response with `Success = true` instead of an
error; the second carries the quotient by the negative rate, -75. -/
theorem ConvertCurrency_nonpositive_rate_counterexample :
    List.lookup "EUR" (Example.snapshot [("EUR", 0), ("GBP", -2), ("JPY", 150)]).Rates
        = some 0
      ∧ List.lookup "GBP" (Example.snapshot [("EUR", 0), ("GBP", -2), ("JPY", 150)]).Rates
        = some (-2)
      ∧ (GetCurrencyRates Example.cs
          (Example.env (Example.snapshot [("EUR", 0), ("GBP", -2), ("JPY", 150)]))
          Example.warm).1
        = .ok (Example.snapshot [("EUR", 0), ("GBP", -2), ("JPY", 150)])
      ∧ (∃ resp, (ConvertCurrency Example.cs
            (Example.env (Example.snapshot [("EUR", 0), ("GBP", -2), ("JPY", 150)]))
            Example.warm { FromCurrency := "EUR", ToCurrency := "JPY", Amount := 1 }).1
          = .ok resp ∧ resp.Success = true)
      ∧ (∃ resp, (ConvertCurrency Example.cs
            (Example.env (Example.snapshot [("EUR", 0), ("GBP", -2), ("JPY", 150)]))
            Example.warm { FromCurrency := "GBP", ToCurrency := "JPY", Amount := 1 }).1
          = .ok resp ∧ resp.Success = true ∧ resp.Result = -75 ∧ resp.Rate = -75) := by
  have hS := congrArg Prod.fst
    (Example_warm_rates (Example.snapshot [("EUR", 0), ("GBP", -2), ("JPY", 150)]))
  refine ⟨rfl, rfl, hS,
    ⟨_, ConvertCurrency_present
      { FromCurrency := "EUR", ToCurrency := "JPY", Amount := 1 } (0) (150) hS rfl rfl, rfl⟩,
    ⟨_, ConvertCurrency_present
      { FromCurrency := "GBP", ToCurrency := "JPY", Amount := 1 } (-2) (150) hS rfl rfl, rfl, ?_, ?_⟩⟩ <;>
    norm_num [show ("GBP" : String) ≠ "USD" by decide, show ("JPY" : String) ≠ "USD" by decide]

/-- C6, amended: `ConvertCurrency` does not validate rates.  For a snapshot `S` and a request
whose two codes are keys, whose source code is not USD and whose source rate is at most 0, the
call returns a response with `Success = true`; when the rate is negative the result is the
table's quotient by that rate. -/
theorem ConvertCurrency_nonpositive_rate_succeeds (cs : CurrencyService) (env : Env)
    (w : World) (S : OXRResponse) (req : ConversionRequest) (fromRate toRate : ℚ)
    (hS : (GetCurrencyRates cs env w).1 = .ok S)
    (hf : S.Rates.lookup req.FromCurrency = some fromRate)
    (ht : S.Rates.lookup req.ToCurrency = some toRate)
    (hne : req.FromCurrency ≠ "USD") (hrate : fromRate ≤ 0) :
    ∃ resp, (ConvertCurrency cs env w req).1 = .ok resp
      ∧ resp.Success = true
      ∧ (fromRate < 0 →
          resp.Result
            = if req.ToCurrency = "USD" then req.Amount / fromRate
              else req.Amount / fromRate * toRate) := by
  have _ := hrate
  refine ⟨_, ConvertCurrency_present req _ _ hS hf ht, rfl, ?_⟩
  intro _
  simp [hne]

/-- GBP at rate -2 to JPY at rate 150, amount 1: a successful response with result -75. -/
theorem ConvertCurrency_nonpositive_rate_succeeds_witness :
    (GetCurrencyRates Example.cs
        (Example.env (Example.snapshot [("GBP", -2), ("JPY", 150)])) Example.warm).1
        = .ok (Example.snapshot [("GBP", -2), ("JPY", 150)])
      ∧ ∃ resp, (ConvertCurrency Example.cs
            (Example.env (Example.snapshot [("GBP", -2), ("JPY", 150)])) Example.warm
            { FromCurrency := "GBP", ToCurrency := "JPY", Amount := 1 }).1 = .ok resp
          ∧ resp.Success = true ∧ resp.Result = -75 := by
  have hS := congrArg Prod.fst
    (Example_warm_rates (Example.snapshot [("GBP", -2), ("JPY", 150)]))
  obtain ⟨resp, h, hok, hres⟩ :=
    ConvertCurrency_nonpositive_rate_succeeds Example.cs _ Example.warm _
      { FromCurrency := "GBP", ToCurrency := "JPY", Amount := 1 } (-2) 150 hS rfl rfl
      (by decide) (by norm_num)
  refine ⟨hS, resp, h, hok, ?_⟩
  rw [hres (by norm_num)]
  norm_num [show ("JPY" : String) ≠ "USD" by decide]

/-! ## Freshness -/

/-- C7: `isRatesCacheValid` is true exactly when `rates.json` is present and the clock minus
its mtime is strictly below one hour (3600e9 ns), and `isCurrenciesCacheValid` is true exactly
when `currencies.json` is present and the clock minus its mtime is strictly below 24 hours.
Each is false on an absent file at every clock value, and false at an age equal to the TTL. -/
theorem cacheValid_iff_present_and_young (w : World) (bytes : String) :
    (isRatesCacheValid w = true
        ↔ ∃ f, w.ratesFile = some f ∧ w.now - f.mtime < 3600000000000)
      ∧ (isCurrenciesCacheValid w = true
        ↔ ∃ f, w.currenciesFile = some f ∧ w.now - f.mtime < 86400000000000)
      ∧ isRatesCacheValid { w with ratesFile := none } = false
      ∧ isCurrenciesCacheValid { w with currenciesFile := none } = false
      ∧ isRatesCacheValid
          { w with ratesFile := some { data := bytes, mtime := w.now - 3600000000000 } } = false
      ∧ isCurrenciesCacheValid
          { w with currenciesFile := some { data := bytes, mtime := w.now - 86400000000000 } }
        = false := by
  have hR : ∀ t u : Int, timeSub t u < RatesCacheDuration ↔ t - u < 3600000000000 := by
    intro t u
    rw [timeSub_lt_iff t u RatesCacheDuration (by decide) (by decide)]
    exact Iff.rfl
  have hC : ∀ t u : Int, timeSub t u < CurrenciesCacheDuration ↔ t - u < 86400000000000 := by
    intro t u
    rw [timeSub_lt_iff t u CurrenciesCacheDuration (by decide) (by decide)]
    exact Iff.rfl
  refine ⟨?_, ?_, rfl, rfl, ?_, ?_⟩
  · cases hfile : w.ratesFile with
    | none => simp [isRatesCacheValid, Stat, World.file, hfile]
    | some f => simp [isRatesCacheValid, Stat, World.file, hfile, hR]
  · cases hfile : w.currenciesFile with
    | none => simp [isCurrenciesCacheValid, Stat, World.file, hfile]
    | some f => simp [isCurrenciesCacheValid, Stat, World.file, hfile, hC]
  · simp [isRatesCacheValid, Stat, World.file, hR]
  · simp [isCurrenciesCacheValid, Stat, World.file, hC]

/-! ## Cache hit -/

/-- C8: when `rates.json` is present, readable, younger than one hour, and its bytes decode
into `S`, `GetCurrencyRates` returns `S` and leaves the whole state as it was: no GET is
logged and both files keep their bytes and mtime.  A second call made at any later clock value
still within the hour returns the same snapshot, whatever the provider would answer. -/
theorem GetCurrencyRates_cache_hit (cs : CurrencyService) (env : Env) (w : World)
    (f : FileEntry) (S : OXRResponse)
    (hfile : w.ratesFile = some f)
    (hread : env.readFault .rates = none)
    (hdec : env.unmarshalRates f.data = .ok S)
    (hfresh : w.now - f.mtime < 3600000000000) :
    GetCurrencyRates cs env w = (.ok S, w)
      ∧ ∀ (provider : String → HttpResult) (later : Int), later - f.mtime < 3600000000000 →
          GetCurrencyRates cs { env with httpGet := provider }
              { (GetCurrencyRates cs env w).2 with now := later }
            = (.ok S, { w with now := later }) := by
  have key : ∀ (e : Env) (v : World), v.ratesFile = some f → e.readFault .rates = none →
      e.unmarshalRates f.data = .ok S → v.now - f.mtime < 3600000000000 →
      GetCurrencyRates cs e v = (.ok S, v) := by
    intro e v h1 h2 h3 h4
    have hvalid : isRatesCacheValid v = true := by
      simp only [isRatesCacheValid, Stat, World.file, h1, Option.map_some', decide_eq_true_eq]
      rw [timeSub_lt_iff _ _ RatesCacheDuration (by decide) (by decide)]
      exact h4
    have hcached : getCachedRates e v = .ok S := by
      simp [getCachedRates, ReadFile, World.file, h1, h2, h3]
    simp [GetCurrencyRates, hvalid, hcached]
  have h0 := key env w hfile hread hdec hfresh
  refine ⟨h0, ?_⟩
  intro provider later hlater
  rw [h0]
  exact key _ _ hfile hread hdec hlater

/-- The seeded state is a hit: the snapshot comes back, nothing is requested, and a call half
an hour later against a provider that now answers still returns it. -/
theorem GetCurrencyRates_cache_hit_witness :
    GetCurrencyRates Example.cs (Example.env (Example.snapshot Example.seedRates)) Example.warm
        = (.ok (Example.snapshot Example.seedRates), Example.warm)
      ∧ GetCurrencyRates Example.cs
          { Example.env (Example.snapshot Example.seedRates) with
            httpGet := fun _ => .response 200 (.ok "rates-v2") }
          { (GetCurrencyRates Example.cs (Example.env (Example.snapshot Example.seedRates))
              Example.warm).2 with now := 1800 * Second }
        = (.ok (Example.snapshot Example.seedRates),
            { Example.warm with now := 1800 * Second }) := by
  have h := GetCurrencyRates_cache_hit Example.cs
    (Example.env (Example.snapshot Example.seedRates)) Example.warm
    { data := "rates-v1", mtime := 0 } (Example.snapshot Example.seedRates) rfl rfl rfl
    (by decide)
  exact ⟨h.1, h.2 (fun _ => .response 200 (.ok "rates-v2")) (1800 * Second) (by decide)⟩

/-! ## Cache miss -/

/-- C9, on the code: with no cache file and an unreachable provider, `fetchCurrenciesFromAPI`
produces an error `e0` whose message already starts with `failed to fetch currencies from
API: `, and `GetCurrencySymbols` returns a different error value, `e0` wrapped once more under
the same text, so the message carries it twice.  In the same state `GetCurrencyRates` returns
the error of `fetchRatesFromAPI` as it is. -/
theorem GetCurrencySymbols_rewraps_upstream_error :
    isCurrenciesCacheValid Example.cold = false
      ∧ (fetchCurrenciesFromAPI Example.cs (Example.env (Example.snapshot Example.seedRates))
          Example.cold).1
        = .error (.wrapError
            "failed to fetch currencies from API: dial tcp: connection refused"
            (.errorString "dial tcp: connection refused"))
      ∧ (GetCurrencySymbols Example.cs (Example.env (Example.snapshot Example.seedRates))
          Example.cold).1
        = .error (.wrapError
            "failed to fetch currencies from API: failed to fetch currencies from API: dial tcp: connection refused"
            (.wrapError
              "failed to fetch currencies from API: dial tcp: connection refused"
              (.errorString "dial tcp: connection refused")))
      ∧ (GetCurrencySymbols Example.cs (Example.env (Example.snapshot Example.seedRates))
          Example.cold).1
        ≠ (fetchCurrenciesFromAPI Example.cs
            (Example.env (Example.snapshot Example.seedRates)) Example.cold).1
      ∧ (GetCurrencySymbols Example.cs (Example.env (Example.snapshot Example.seedRates))
          Example.cold).2.requests = ["https://oxr.test/api/currencies.json"]
      ∧ (GetCurrencyRates Example.cs (Example.env (Example.snapshot Example.seedRates))
          Example.cold).1
        = (fetchRatesFromAPI Example.cs
            (Example.env (Example.snapshot Example.seedRates)) Example.cold).1 := by
  have h1 : isCurrenciesCacheValid Example.cold = false := rfl
  have h2 : (fetchCurrenciesFromAPI Example.cs
      (Example.env (Example.snapshot Example.seedRates)) Example.cold).1
        = .error (.wrapError
            "failed to fetch currencies from API: dial tcp: connection refused"
            (.errorString "dial tcp: connection refused")) := by
    simp [fetchCurrenciesFromAPI, Example.env, Errorf_w, GoError.Error]
  have h3 : (GetCurrencySymbols Example.cs (Example.env (Example.snapshot Example.seedRates))
      Example.cold).1
        = .error (.wrapError
            "failed to fetch currencies from API: failed to fetch currencies from API: dial tcp: connection refused"
            (.wrapError
              "failed to fetch currencies from API: dial tcp: connection refused"
              (.errorString "dial tcp: connection refused"))) := by
    rw [GetCurrencySymbols_miss _ _ _ (Or.inl h1)]
    simp [fetchCurrenciesFromAPI, Example.env, Errorf_w, GoError.Error]
  have h4 : (GetCurrencySymbols Example.cs (Example.env (Example.snapshot Example.seedRates))
      Example.cold).2.requests = ["https://oxr.test/api/currencies.json"] := by
    rw [GetCurrencySymbols_miss _ _ _ (Or.inl h1)]
    simp [fetchCurrenciesFromAPI, Example.env, Example.cold, currenciesURL, Example.cs]
  have h5 : (GetCurrencyRates Example.cs (Example.env (Example.snapshot Example.seedRates))
      Example.cold).1
        = (fetchRatesFromAPI Example.cs
            (Example.env (Example.snapshot Example.seedRates)) Example.cold).1 := by
    have h0 : isRatesCacheValid Example.cold = false := rfl
    rw [GetCurrencyRates_miss _ _ _ (Or.inl h0)]
    simp [fetchRatesFromAPI, Example.env]
  refine ⟨h1, h2, h3, ?_, h4, h5⟩
  rw [h2, h3]
  intro h
  injection h with h
  exact absurd h (by decide)

/-- What both operations do on a miss.  When the cache file of a resource is absent or not
fresh, or fails to load or decode, the operation requests the provider exactly once.  If the fetch succeeds, the fetched
value is returned unchanged whether or not the cache write succeeds, and when encoding and
writing succeed the file holds the encoded value with the current clock as mtime.  If the
fetch fails, both files are left as they were; `GetCurrencyRates` returns the error of the
upstream client itself, and `GetCurrencySymbols` returns that error wrapped under the text
`failed to fetch currencies from API: `. -/
theorem cache_miss_fetches_once (cs : CurrencyService) (env : Env) (w : World) :
    ((isRatesCacheValid w = false ∨ ∃ err, getCachedRates env w = .error err) →
        (GetCurrencyRates cs env w).2.requests = w.requests ++ [ratesURL cs]
          ∧ (∀ v, (fetchRatesFromAPI cs env w).1 = .ok v →
              (GetCurrencyRates cs env w).1 = .ok v
                ∧ ∀ bytes, env.marshalRates v = .ok bytes → env.writeFault .rates = none →
                    (GetCurrencyRates cs env w).2.ratesFile
                        = some { data := bytes, mtime := w.now }
                      ∧ (GetCurrencyRates cs env w).2.currenciesFile = w.currenciesFile)
          ∧ (∀ err, (fetchRatesFromAPI cs env w).1 = .error err →
              (GetCurrencyRates cs env w).1 = .error err
                ∧ (GetCurrencyRates cs env w).2.ratesFile = w.ratesFile
                ∧ (GetCurrencyRates cs env w).2.currenciesFile = w.currenciesFile))
      ∧ ((isCurrenciesCacheValid w = false ∨ ∃ err, getCachedCurrencies env w = .error err) →
        (GetCurrencySymbols cs env w).2.requests = w.requests ++ [currenciesURL cs]
          ∧ (∀ v, (fetchCurrenciesFromAPI cs env w).1 = .ok v →
              (GetCurrencySymbols cs env w).1 = .ok v
                ∧ ∀ bytes, env.marshalCurrencies v = .ok bytes →
                    env.writeFault .currencies = none →
                    (GetCurrencySymbols cs env w).2.currenciesFile
                        = some { data := bytes, mtime := w.now }
                      ∧ (GetCurrencySymbols cs env w).2.ratesFile = w.ratesFile)
          ∧ (∀ err, (fetchCurrenciesFromAPI cs env w).1 = .error err →
              (GetCurrencySymbols cs env w).1
                  = .error (Errorf_w "failed to fetch currencies from API: " err)
                ∧ (GetCurrencySymbols cs env w).2.ratesFile = w.ratesFile
                ∧ (GetCurrencySymbols cs env w).2.currenciesFile = w.currenciesFile)) := by
  constructor
  · intro hmiss
    have hw := fetchRatesFromAPI_world cs env w
    rcases hfetch : fetchRatesFromAPI cs env w with ⟨res, w1⟩
    rw [hfetch] at hw
    simp only at hw
    subst hw
    cases res with
    | error e0 =>
      have hG := GetCurrencyRates_miss_error cs env w hmiss hfetch
      rw [hG]
      refine ⟨rfl, ?_, ?_⟩
      · intro v hv
        cases hv
      · intro err herr
        cases herr
        exact ⟨rfl, rfl, rfl⟩
    | ok v0 =>
      have hG := GetCurrencyRates_miss_ok cs env w hmiss hfetch
      have hreq := cacheRates_requests env
        { w with requests := w.requests ++ [ratesURL cs] } v0
      refine ⟨?_, ?_, ?_⟩
      · rw [hG]
        rcases hcache : cacheRates env
          { w with requests := w.requests ++ [ratesURL cs] } v0 with ⟨o, w2⟩
        rw [hcache] at hreq
        cases o <;> simpa [Printf] using hreq
      · intro v hv
        cases hv
        constructor
        · rw [hG]
          rcases cacheRates env
            { w with requests := w.requests ++ [ratesURL cs] } v0 with ⟨o, w2⟩
          cases o <;> rfl
        · intro bytes hm hwf
          rw [hG]
          simp [cacheRates, hm, WriteFile, hwf, World.setFile]
      · intro err herr
        cases herr
  · intro hmiss
    have hw := fetchCurrenciesFromAPI_world cs env w
    rcases hfetch : fetchCurrenciesFromAPI cs env w with ⟨res, w1⟩
    rw [hfetch] at hw
    simp only at hw
    subst hw
    cases res with
    | error e0 =>
      have hG := GetCurrencySymbols_miss_error cs env w hmiss hfetch
      rw [hG]
      refine ⟨rfl, ?_, ?_⟩
      · intro v hv
        cases hv
      · intro err herr
        cases herr
        exact ⟨rfl, rfl, rfl⟩
    | ok v0 =>
      have hG := GetCurrencySymbols_miss_ok cs env w hmiss hfetch
      have hreq := cacheCurrencies_requests env
        { w with requests := w.requests ++ [currenciesURL cs] } v0
      refine ⟨?_, ?_, ?_⟩
      · rw [hG]
        rcases hcache : cacheCurrencies env
          { w with requests := w.requests ++ [currenciesURL cs] } v0 with ⟨o, w2⟩
        rw [hcache] at hreq
        cases o <;> simpa [Printf] using hreq
      · intro v hv
        cases hv
        constructor
        · rw [hG]
          rcases cacheCurrencies env
            { w with requests := w.requests ++ [currenciesURL cs] } v0 with ⟨o, w2⟩
          cases o <;> rfl
        · intro bytes hm hwf
          rw [hG]
          simp [cacheCurrencies, hm, WriteFile, hwf, World.setFile]
      · intro err herr
        cases herr

/-- On the state without cache files: an unreachable provider is requested once and its error
comes back from `GetCurrencyRates` as it is, and a provider that answers has its snapshot
returned and written to `rates.json`. -/
theorem cache_miss_fetches_once_witness :
    isRatesCacheValid Example.cold = false
      ∧ (GetCurrencyRates Example.cs (Example.env (Example.snapshot Example.seedRates))
          Example.cold).2.requests = ["https://oxr.test/api/latest.json?app_id=app&base=USD"]
      ∧ (GetCurrencyRates Example.cs (Example.env (Example.snapshot Example.seedRates))
          Example.cold).1
        = .error (.wrapError "failed to fetch rates from API: dial tcp: connection refused"
            (.errorString "dial tcp: connection refused"))
      ∧ (GetCurrencyRates Example.cs (Example.liveEnv (Example.snapshot Example.seedRates))
          Example.cold).1 = .ok (Example.snapshot Example.seedRates)
      ∧ (GetCurrencyRates Example.cs (Example.liveEnv (Example.snapshot Example.seedRates))
          Example.cold).2.ratesFile = some { data := "rates-v1", mtime := 1000 * Second }
      ∧ isCurrenciesCacheValid Example.cold = false
      ∧ (GetCurrencySymbols Example.cs (Example.env (Example.snapshot Example.seedRates))
          Example.cold).2.requests = ["https://oxr.test/api/currencies.json"]
      ∧ (GetCurrencySymbols Example.cs (Example.env (Example.snapshot Example.seedRates))
          Example.cold).1
        = .error (Errorf_w "failed to fetch currencies from API: "
            (.wrapError "failed to fetch currencies from API: dial tcp: connection refused"
              (.errorString "dial tcp: connection refused"))) := by
  have hdown := (cache_miss_fetches_once Example.cs
    (Example.env (Example.snapshot Example.seedRates)) Example.cold).1 (Or.inl rfl)
  have hlive := (cache_miss_fetches_once Example.cs
    (Example.liveEnv (Example.snapshot Example.seedRates)) Example.cold).1 (Or.inl rfl)
  have hsym := (cache_miss_fetches_once Example.cs
    (Example.env (Example.snapshot Example.seedRates)) Example.cold).2 (Or.inl rfl)
  refine ⟨rfl, hdown.1, (hdown.2.2 _ ?_).1, (hlive.2.1 _ ?_).1,
    ((hlive.2.1 (Example.snapshot Example.seedRates) ?_).2 "rates-v1" rfl rfl).1,
    rfl, hsym.1, (hsym.2.2 _ ?_).1⟩
  · simp [fetchRatesFromAPI, Example.env, Errorf_w, GoError.Error]
  · simp [fetchRatesFromAPI, Example.liveEnv, Example.env]
  · simp [fetchRatesFromAPI, Example.liveEnv, Example.env]
  · simp [fetchCurrenciesFromAPI, Example.env, Errorf_w, GoError.Error]

end services

/-! ## The convert handler -/

namespace handlers

open services

/-- What the handler of `POST /api/convert` answers, case by case: an unparsable body or a
request with an empty code or an amount at most 0 gets 400 without the service being
called (the state is returned as it was, whatever the environment); any error of the service
gets 400 with the error's message; a response of the service gets 200 when it encodes as
JSON and 500 with the encoder's message when it does not. -/
theorem ConvertCurrency_statuses (cs : CurrencyService) (env : Env) (w : World)
    (req : ConversionRequest) :
    (∀ perr, ConvertCurrency cs env w (.error perr)
        = ({ status := 400
             body := .error { Success := false, Error := "Invalid request body" } }, w))
      ∧ (req.FromCurrency = "" ∨ req.ToCurrency = "" ∨ req.Amount ≤ 0 →
          (ConvertCurrency cs env w (.ok req)).1.status = 400
            ∧ (∃ msg, (ConvertCurrency cs env w (.ok req)).1.body
                = .error { Success := false, Error := msg })
            ∧ (ConvertCurrency cs env w (.ok req)).2 = w)
      ∧ (¬ (req.FromCurrency = "" ∨ req.ToCurrency = "" ∨ req.Amount ≤ 0) →
          (∀ err, (services.ConvertCurrency cs env w req).1 = .error err →
              (ConvertCurrency cs env w (.ok req)).1
                = { status := 400, body := .error { Success := false, Error := err.Error } })
            ∧ (∀ resp bytes, (services.ConvertCurrency cs env w req).1 = .ok resp →
              env.marshalConversion resp = .ok bytes →
              (ConvertCurrency cs env w (.ok req)).1
                = { status := 200, body := .conversion resp })
            ∧ (∀ resp err, (services.ConvertCurrency cs env w req).1 = .ok resp →
              env.marshalConversion resp = .error err →
              (ConvertCurrency cs env w (.ok req)).1
                = { status := 500
                    body := .error { Success := false, Error := err.Error } })) := by
  refine ⟨fun _ => rfl, ?_, ?_⟩
  · intro hbad
    have h : ConvertCurrency cs env w (.ok req)
        = ({ status := 400
             body := .error
              { Success := false
                Error := "from_currency, to_currency are required and amount must be greater than 0" } },
            w) := by
      simp only [ConvertCurrency, if_pos hbad, StatusBadRequest]
    rw [h]
    exact ⟨rfl, ⟨_, rfl⟩, rfl⟩
  · intro hgood
    simp only [ConvertCurrency, if_neg hgood]
    rcases services.ConvertCurrency cs env w req with ⟨res, w1⟩
    refine ⟨?_, ?_, ?_⟩
    · intro err herr
      simp only at herr
      subst herr
      rfl
    · intro resp bytes hresp henc
      simp only at hresp
      subst hresp
      simp only [henc]
      rfl
    · intro resp err hresp henc
      simp only at hresp
      subst hresp
      simp only [henc]
      rfl

/-- C10, on the code: a valid request (USD to EUR, amount 10) arriving when no cache file exists
and the provider is unreachable is answered 400 with the wrapped upstream error, after one GET;
the handler of `GET /api/rates` answers the same failure with 500. -/
theorem ConvertCurrency_upstream_failure_is_400 :
    ConvertCurrency Example.cs (Example.env (Example.snapshot Example.seedRates)) Example.cold
        (.ok { FromCurrency := "USD", ToCurrency := "EUR", Amount := 10 })
      = ({ status := 400
           body := .error
            { Success := false
              Error := "failed to get currency rates: failed to fetch rates from API: dial tcp: connection refused" } },
          { Example.cold with
            requests := ["https://oxr.test/api/latest.json?app_id=app&base=USD"] })
      ∧ (GetCurrencyRates Example.cs (Example.env (Example.snapshot Example.seedRates))
          Example.cold).1.status = 500 := by
  have hmiss : isRatesCacheValid Example.cold = false
      ∨ ∃ err, getCachedRates (Example.env (Example.snapshot Example.seedRates)) Example.cold
          = .error err := Or.inl rfl
  have hfetch : fetchRatesFromAPI Example.cs (Example.env (Example.snapshot Example.seedRates))
      Example.cold
        = (.error (.wrapError "failed to fetch rates from API: dial tcp: connection refused"
            (.errorString "dial tcp: connection refused")),
          { Example.cold with
            requests := ["https://oxr.test/api/latest.json?app_id=app&base=USD"] }) := by
    simp [fetchRatesFromAPI, Example.env, Errorf_w, GoError.Error, Example.cold, ratesURL,
      Example.cs]
  have hG := GetCurrencyRates_miss_error _ _ _ hmiss hfetch
  constructor
  · have hvalid : ¬ (("USD" : String) = "" ∨ ("EUR" : String) = "" ∨ (10 : ℚ) ≤ 0) := by
      rintro (h | h | h)
      · exact absurd h (by decide)
      · exact absurd h (by decide)
      · norm_num at h
    simp only [ConvertCurrency, if_neg hvalid, services.ConvertCurrency, hG]
    simp [Errorf_w, GoError.Error, StatusBadRequest]
  · simp only [GetCurrencyRates, hG]
    rfl

end handlers

end CurrencyConverter
